import Mathlib

/-!
# Verification of the REPL-mode Quarto filter engine

A shallow embedding of `_extensions/repl-mode/repl_filter.py`: the statement
segmenter (`REPLSession.execute`), the execution sandbox (`REPLSession._flush_buffer`
together with the stdlib `code.InteractiveConsole.runcode` contract), the transcript
builder, and the theme derivation (`_make_repl_style`).

The CPython parse probe (`code.compile_command`) and the executor are external
collaborators (spec section 6); here they are explicit parameters (`Probe`, `Interp`)
of the embedded engine.  Concrete instances mirroring CPython's behaviour on the
example programs of the spec are provided for witnesses.

All string manipulation is re-implemented by structural recursion on the underlying
character lists so that every definition evaluates inside the kernel.
-/

namespace ReplFilter

/-! ## Python string primitives used by the filter -/

/-- `str.lstrip()` with the default whitespace set. -/
def pyLstrip (s : String) : String := ⟨s.data.dropWhile Char.isWhitespace⟩

/-- `str.rstrip()` with the default whitespace set. -/
def pyRstrip (s : String) : String := ⟨(s.data.reverse.dropWhile Char.isWhitespace).reverse⟩

/-- `str.strip()` with the default whitespace set. -/
def pyStrip (s : String) : String := pyRstrip (pyLstrip s)

/-- `line.startswith((" ", "\t"))`: the line begins with a space or a tab. -/
def startsWithIndent (line : String) : Bool :=
  match line.data with
  | [] => false
  | c :: _ => c == ' ' || c == '\t'

/-- Split a character list at every newline, as Python `str.split("\n")` does
(`""` yields one empty piece, a trailing newline yields a trailing empty piece). -/
def splitNlAux : List Char → List Char → List (List Char)
  | [], acc => [acc.reverse]
  | c :: rest, acc =>
    if c == '\n' then acc.reverse :: splitNlAux rest []
    else splitNlAux rest (c :: acc)

/-- `source.split("\n")`. -/
def pySplitNl (s : String) : List String := (splitNlAux s.data []).map (fun l => ⟨l⟩)

/-- Join pieces with newlines: `"\n".join(parts)`. -/
def joinNlAux : List (List Char) → List Char
  | [] => []
  | [x] => x
  | x :: y :: rest => x ++ '\n' :: joinNlAux (y :: rest)

/-- `"\n".join(parts)`. -/
def joinNl (parts : List String) : String := ⟨joinNlAux (parts.map String.data)⟩

/-- First whitespace-delimited token of an already left-stripped string:
`stripped.split()[0]` when `stripped` is non-empty. -/
def firstToken (s : String) : String := ⟨s.data.takeWhile (fun c => !c.isWhitespace)⟩

/-- `token.rstrip(":")`: drop trailing colon characters. -/
def stripTrailingColons (s : String) : String :=
  ⟨(s.data.reverse.dropWhile (fun c => c == ':')).reverse⟩

/-- Count non-overlapping occurrences of a run of three copies of `q`, scanning
left to right — exactly Python `source.count(q * 3)` for the two triple-quote
delimiters. -/
def countTriple (q : Char) : List Char → Nat
  | c1 :: c2 :: c3 :: rest =>
    if c1 == q && c2 == q && c3 == q then countTriple q rest + 1
    else countTriple q (c2 :: c3 :: rest)
  | _ => 0

/-- Does `pat` occur inside `s` (as a contiguous substring)?  Used only to state
claims about diagnostic texts. -/
def occursIn (pat s : String) : Bool :=
  let rec go (p : List Char) : List Char → Bool
    | [] => p.isPrefixOf []
    | c :: rest => p.isPrefixOf (c :: rest) || go p rest
  go pat.data s.data

/-! ## `repl_filter.py` constants and string helpers -/

/-- `REPR_SENTINEL = "\x00REPR\x00"`: the internal tag marking a ResultText line. -/
def REPR_SENTINEL : String := "\x00REPR\x00"

/-- `CONTINUATION_KEYWORDS = frozenset({"else", "elif", "except", "finally", "case"})`. -/
def CONTINUATION_KEYWORDS : List String := ["else", "elif", "except", "finally", "case"]

/-- `_has_unterminated_triple_quote(source)`: an odd number of `\"\"\"` or `'''`
delimiters in `source`. -/
def hasUnterminatedTripleQuote (source : String) : Bool :=
  (countTriple '"' source.data) % 2 == 1 || (countTriple (Char.ofNat 39) source.data) % 2 == 1

/-- `REPLSession._is_continuation_keyword(line)`. -/
def is_continuation_keyword (line : String) : Bool :=
  let stripped := pyLstrip line
  if stripped == "" then false
  else CONTINUATION_KEYWORDS.contains (stripTrailingColons (firstToken stripped))

/-- `REPLSession._next_line_is_continuation(lines, i)`: the line after index `i`,
if any, starts with a continuation keyword (same token test as
`_is_continuation_keyword`, which the source inlines a second time). -/
def next_line_is_continuation (lines : List String) (i : Nat) : Bool :=
  match lines.get? (i + 1) with
  | none => false
  | some next => is_continuation_keyword next

/-! ## Python values and the session namespace -/

/-- Python values as far as the engine observes them: `None` (filtered by the
display hook), integers and strings (the values displayed in this development),
and string-keyed dicts (the `__builtins__` container used for the `_` stash). -/
inductive PyVal where
  | none
  | int (n : Int)
  | str (s : String)
  | dict (entries : List (String × PyVal))

/-- A single-quote character, kept out of string literals. -/
def squote : String := String.singleton (Char.ofNat 39)

/-- Escape one character the way CPython `repr` renders it inside a
single-quoted string. -/
def reprEscapeChar (c : Char) : String :=
  if c == '\\' then "\\\\"
  else if c == '\n' then "\\n"
  else if c == '\r' then "\\r"
  else if c == '\t' then "\\t"
  else if c == Char.ofNat 39 then "\\" ++ squote
  else String.singleton c

/-- CPython `repr` of a plain string (single-quoted form; the double-quote
preference for strings containing a quote is not needed by any claim). -/
def pyStrRepr (s : String) : String :=
  squote ++ String.join (s.data.map reprEscapeChar) ++ squote

/-- CPython `repr` on the modelled values.  Dict rendering is not needed by any
claim (dicts only occur as the `__builtins__` container, never displayed). -/
def pyRepr : PyVal → String
  | .none => "None"
  | .int n => toString n
  | .str s => pyStrRepr s
  | .dict _ => "<dict>"

/-- `console.locals`: the persistent session namespace, an insertion-ordered
string-keyed dict. -/
abbrev Namespace := List (String × PyVal)

/-- `d[k] = v` on an insertion-ordered dict. -/
def nsSet (ns : Namespace) (k : String) (v : PyVal) : Namespace :=
  match ns with
  | [] => [(k, v)]
  | (k0, v0) :: rest => if k0 == k then (k, v) :: rest else (k0, v0) :: nsSet rest k v

/-- `d[k]` lookup. -/
def nsGet (ns : Namespace) (k : String) : Option PyVal :=
  match ns with
  | [] => none
  | (k0, v0) :: rest => if k0 == k then some v0 else nsGet rest k

/-- `d.setdefault(k, default)`: the present value, or the default inserted at
the end. -/
def nsSetdefault (ns : Namespace) (k : String) (d : PyVal) : PyVal × Namespace :=
  match nsGet ns k with
  | some v => (v, ns)
  | none => (d, ns ++ [(k, d)])

/-! ## The external collaborators: parse probe and executor -/

/-- Outcome of `code.compile_command(src, symbol="single")`:
a code object (`complete`), `None` (`incomplete`), or a raised `SyntaxError`
whose formatted text `console.showsyntaxerror()` would print (`invalid`). -/
inductive ProbeResult where
  | complete
  | incomplete
  | invalid (diag : String)
deriving DecidableEq

/-- The parse probe, an external capability (spec section 6). -/
abbrev Probe := String → ProbeResult

/-- Raw effect of executing one compiled turn against a namespace:
text written to `sys.stdout` and `sys.stderr` by the code itself, the formatted
traceback of an unhandled exception if one was raised, the values handed to
`sys.displayhook` (one per bare top-level expression, in evaluation order,
`None` included), and the updated namespace. -/
structure RawExec where
  out : String
  err : String
  exc : Option String
  displayed : List PyVal
  ns : Namespace

/-- The executor, an external capability consumed through
`code.InteractiveConsole.runcode`. -/
abbrev Interp := Namespace → String → RawExec

/-- State threaded through `_capture_displayhook`: the collected canonical
representations and the namespace (which the hook mutates through the
`__builtins__["_"]` stash). -/
structure HookState where
  reprs : List String
  ns : Namespace

/-- `_capture_displayhook(value)`: ignore `None`; otherwise record `repr(value)`
and stash the value under `_` inside `console.locals["__builtins__"]`
(created as a dict when absent).  Attribute assignment on a module-typed
`__builtins__` is outside the value model and leaves the namespace unchanged. -/
def capture_displayhook (st : HookState) (value : PyVal) : HookState :=
  match value with
  | .none => st
  | v =>
    let reprs := st.reprs ++ [pyRepr v]
    let (builtins, ns1) := nsSetdefault st.ns "__builtins__" (.dict [])
    match builtins with
    | .dict es => { reprs := reprs, ns := nsSet ns1 "__builtins__" (.dict (nsSet es "_" v)) }
    | _ => { reprs := reprs, ns := ns1 }

/-- What `self.console.runcode(compiled)` leaves behind while the capture hook
is installed: `runcode` catches an unhandled exception and prints its formatted
traceback to the (redirected) `sys.stderr`, so the traceback text lands at the
end of the captured error channel; each displayed value goes through
`_capture_displayhook`. -/
structure RunResult where
  out : String
  err : String
  reprs : List String
  ns : Namespace

/-- Run one compiled turn through the modelled `runcode` with the capture hook
installed. -/
def runcode (interp : Interp) (ns : Namespace) (src : String) : RunResult :=
  let r := interp ns src
  let hook := r.displayed.foldl capture_displayhook { reprs := [], ns := r.ns }
  { out := r.out,
    err := r.err ++ (match r.exc with | some t => t | none => ""),
    reprs := hook.reprs,
    ns := hook.ns }

/-! ## The execution sandbox: `REPLSession._flush_buffer` -/

/-- The process-wide channels the sandbox swaps and restores: identities of
`sys.stdout`, `sys.stderr` and `sys.displayhook`. -/
structure SysChannels where
  stdoutRef : Nat
  stderrRef : Nat
  displayhookRef : Nat
deriving DecidableEq

/-- Echo lines for a buffer: `>>> ` before the first line, `... ` before each
subsequent line (call sites guarantee a non-empty buffer). -/
def echoes : List String → List String
  | [] => []
  | b0 :: rest => (">>> " ++ b0) :: rest.map (fun b => "... " ++ b)

/-- Result of one `_flush_buffer` call: the grown output parts, the updated
namespace, the process channels after the call, and the allocator for fresh
`StringIO` identities. -/
structure FlushResult where
  parts : List String
  ns : Namespace
  chans : SysChannels
  fresh : Nat

/-- `REPLSession._flush_buffer(buffer, output_parts)`.

Re-probes the joined buffer with a trailing newline.  On a `SyntaxError` the
lines are echoed and `console.showsyntaxerror()` output — captured on a
temporarily redirected `sys.stderr` — is appended when non-empty.  On `None`
(still incomplete) the lines are only echoed.  Otherwise the lines are echoed,
stdout/stderr are redirected to fresh `StringIO` buffers and the capture hook is
installed, the turn runs through `runcode`, the originals are restored, and the
captured stdout, captured stderr and tagged representations are appended in
that order (non-empty channels only, right-stripped). -/
def flush_buffer (probe : Probe) (interp : Interp) (buffer : List String)
    (parts : List String) (ns : Namespace) (chans : SysChannels) (fresh : Nat) :
    FlushResult :=
  let full := joinNl buffer
  match probe (full ++ "\n") with
  | .invalid diag =>
      let parts := parts ++ echoes buffer
      let oldStderr := chans.stderrRef
      let chans1 : SysChannels := { chans with stderrRef := fresh }
      let err := diag
      let chans2 : SysChannels := { chans1 with stderrRef := oldStderr }
      let parts := if err == "" then parts else parts ++ [pyRstrip err]
      { parts := parts, ns := ns, chans := chans2, fresh := fresh + 1 }
  | .incomplete =>
      { parts := parts ++ echoes buffer, ns := ns, chans := chans, fresh := fresh }
  | .complete =>
      let parts := parts ++ echoes buffer
      let oldStdout := chans.stdoutRef
      let oldStderr := chans.stderrRef
      let oldDisplayhook := chans.displayhookRef
      let _chansRedirected : SysChannels :=
        { stdoutRef := fresh, stderrRef := fresh + 1, displayhookRef := fresh + 2 }
      let run := runcode interp ns full
      let chansRestored : SysChannels :=
        { stdoutRef := oldStdout, stderrRef := oldStderr, displayhookRef := oldDisplayhook }
      let parts := if run.out == "" then parts else parts ++ [pyRstrip run.out]
      let parts := if run.err == "" then parts else parts ++ [pyRstrip run.err]
      let parts := parts ++ run.reprs.map (fun rv => REPR_SENTINEL ++ rv)
      { parts := parts, ns := run.ns, chans := chansRestored, fresh := fresh + 3 }

/-! ## The statement segmenter: `REPLSession.execute` -/

/-- Loop state of `execute`: accumulated output parts, the pending buffer, the
session namespace, the process channels, and the fresh-stream allocator. -/
structure ExecState where
  parts : List String
  buffer : List String
  ns : Namespace
  chans : SysChannels
  fresh : Nat

/-- The pre-append check of `execute` (its conditions all pure, flattened into
one conjunction): the buffer is non-empty, the new line is unindented,
non-blank and does not start with a continuation keyword, the buffered source
probes incomplete (`compile_command` returned `None`, not a `SyntaxError`), and
the buffer holds no open triple-quoted literal — then the dangling buffer is
flushed before the new line starts. -/
def precheckFires (probe : Probe) (line : String) (buf : List String) : Bool :=
  !buf.isEmpty && !startsWithIndent line && !(pyStrip line == "") &&
    !is_continuation_keyword line &&
    (probe (joinNl buf) == ProbeResult.incomplete) &&
    !hasUnterminatedTripleQuote (joinNl buf)

/-- One iteration of the `execute` loop on line `i`. -/
def execStep (probe : Probe) (interp : Interp) (lines : List String) (i : Nat)
    (line : String) (st : ExecState) : ExecState :=
  let st1 :=
    if precheckFires probe line st.buffer then
      let r := flush_buffer probe interp st.buffer st.parts st.ns st.chans st.fresh
      { parts := r.parts, buffer := [], ns := r.ns, chans := r.chans, fresh := r.fresh }
    else st
  let buffer := st1.buffer ++ [line]
  let full := joinNl buffer
  match probe full with
  | .invalid _ =>
      if hasUnterminatedTripleQuote full then { st1 with buffer := buffer }
      else
        let r := flush_buffer probe interp buffer st1.parts st1.ns st1.chans st1.fresh
        { parts := r.parts, buffer := [], ns := r.ns, chans := r.chans, fresh := r.fresh }
  | .incomplete => { st1 with buffer := buffer }
  | .complete =>
      if next_line_is_continuation lines i then { st1 with buffer := buffer }
      else
        let r := flush_buffer probe interp buffer st1.parts st1.ns st1.chans st1.fresh
        { parts := r.parts, buffer := [], ns := r.ns, chans := r.chans, fresh := r.fresh }

/-- The `for i, line in enumerate(lines)` loop. -/
def execGo (probe : Probe) (interp : Interp) (lines : List String) :
    Nat → List String → ExecState → ExecState
  | _, [], st => st
  | i, l :: rest, st => execGo probe interp lines (i + 1) rest (execStep probe interp lines i l st)

/-- Result of `REPLSession.execute`: the joined transcript plus the updated
session and process state. -/
structure ExecuteResult where
  output : String
  ns : Namespace
  chans : SysChannels
  fresh : Nat

/-- `REPLSession.execute(source)`: strip the source, split it into physical
lines, run the segmentation loop, flush any trailing buffer, and join the
collected parts with newlines. -/
def execute (probe : Probe) (interp : Interp) (ns : Namespace) (chans : SysChannels)
    (fresh : Nat) (source : String) : ExecuteResult :=
  let lines := pySplitNl (pyStrip source)
  let st0 : ExecState := { parts := [], buffer := [], ns := ns, chans := chans, fresh := fresh }
  let st := execGo probe interp lines 0 lines st0
  let final :=
    if st.buffer.isEmpty then
      { parts := st.parts, ns := st.ns, chans := st.chans, fresh := st.fresh : FlushResult }
    else flush_buffer probe interp st.buffer st.parts st.ns st.chans st.fresh
  { output := joinNl final.parts, ns := final.ns, chans := final.chans, fresh := final.fresh }

/-! ## Transcript observers

Spec-side observers used to state the ordering claims: the body-text lines and
the tagged ResultText lines one `_flush_buffer` call appends after the echoes. -/

/-- Body-text lines of one executed turn: captured stdout then captured stderr,
right-stripped, each present only when non-empty. -/
def bodyLines (run : RunResult) : List String :=
  (if run.out == "" then [] else [pyRstrip run.out]) ++
    (if run.err == "" then [] else [pyRstrip run.err])

/-- Tagged ResultText lines of one executed turn, in evaluation order. -/
def resultLines (run : RunResult) : List String :=
  run.reprs.map (fun rv => REPR_SENTINEL ++ rv)

/-! ## Concrete oracle instances

`cpProbe` and `cpInterp` model the CPython parse probe and executor — external
capabilities per spec section 6 — on the concrete example programs used by the
spec's testable properties.  Everything else defaults to `incomplete` / a no-op
execution. -/

/-- The open first line of the spec's multi-line literal example. -/
def tqOpenSrc : String := "\"\"\"hello"

/-- The closed two-line triple-quoted literal. -/
def tqLitSrc : String := "\"\"\"hello\nworld\"\"\""

/-- The one-turn compound block of the continuation-clause example. -/
def ifElseSrc : String := "if True: print(1)\nelse: print(2)"

/-- Formatted `SyntaxError` text for the bare `def` example, as
`console.showsyntaxerror()` prints it. -/
def defDiag : String :=
  "  File \"<input>\", line 1\n    def\n       ^^^\nSyntaxError: invalid syntax\n"

/-- Formatted `SyntaxError` text for an unterminated triple-quoted literal. -/
def tqDiag : String :=
  "  File \"<input>\", line 1\nSyntaxError: unterminated triple-quoted string literal (detected at line 1)\n"

/-- Formatted traceback of the unbound-name example. -/
def nameErrTrace : String :=
  "Traceback (most recent call last):\n  File \"<input>\", line 1, in <module>\nNameError: name \x27undefined_var\x27 is not defined\n"

/-- Sources `code.compile_command` accepts as complete, with and without the
trailing newline `_flush_buffer` adds. -/
def cpCompleteSrcs : List String :=
  ["2 + 3", "x = 10", "x", "x * 2", "x = 99", "x = 1", "x = 42",
   "undefined_var", "f()", "if True: print(1)", tqLitSrc,
   "2 + 3\n", "x = 10\n", "x\n", "x * 2\n", "x = 99\n", "x = 1\n", "x = 42\n",
   "undefined_var\n", "f()\n", ifElseSrc ++ "\n", tqLitSrc ++ "\n"]

/-- The CPython parse probe on the example programs. -/
def cpProbe : Probe := fun s =>
  if cpCompleteSrcs.contains s then .complete
  else if s == "def" || s == "def\n" then .invalid defDiag
  else if s == tqOpenSrc then .invalid tqDiag
  else .incomplete

/-- The CPython executor on the example programs: assignments update the
namespace, bare expressions hand their value to the display hook, an unbound
name raises a `NameError`, the compound block prints `1`, the closed literal
displays its string value, and `f()` prints `side` and returns `42`. -/
def cpInterp : Interp := fun ns src =>
  if src == "2 + 3" then { out := "", err := "", exc := none, displayed := [.int 5], ns := ns }
  else if src == "x = 10" then
    { out := "", err := "", exc := none, displayed := [], ns := nsSet ns "x" (.int 10) }
  else if src == "x = 99" then
    { out := "", err := "", exc := none, displayed := [], ns := nsSet ns "x" (.int 99) }
  else if src == "x = 1" then
    { out := "", err := "", exc := none, displayed := [], ns := nsSet ns "x" (.int 1) }
  else if src == "x = 42" then
    { out := "", err := "", exc := none, displayed := [], ns := nsSet ns "x" (.int 42) }
  else if src == "x" then
    match nsGet ns "x" with
    | some v => { out := "", err := "", exc := none, displayed := [v], ns := ns }
    | none => { out := "", err := "", exc := some nameErrTrace, displayed := [], ns := ns }
  else if src == "x * 2" then
    match nsGet ns "x" with
    | some (.int n) =>
        { out := "", err := "", exc := none, displayed := [.int (n * 2)], ns := ns }
    | _ => { out := "", err := "", exc := some nameErrTrace, displayed := [], ns := ns }
  else if src == "undefined_var" then
    { out := "", err := "", exc := some nameErrTrace, displayed := [], ns := ns }
  else if src == ifElseSrc then
    { out := "1\n", err := "", exc := none, displayed := [], ns := ns }
  else if src == tqLitSrc then
    { out := "", err := "", exc := none, displayed := [.str "hello\nworld"], ns := ns }
  else if src == "f()" then
    { out := "side\n", err := "", exc := none, displayed := [.int 42], ns := ns }
  else { out := "", err := "", exc := none, displayed := [], ns := ns }

/-! ## Segmenter accumulation predicates -/

/-- The main probe of one loop iteration lets the buffer keep accumulating:
a `SyntaxError` with an open triple-quoted literal, an incomplete probe, or a
complete probe whose following line starts with a continuation keyword. -/
def mainKeeps (probe : Probe) (lines : List String) (i : Nat) (full : String) : Bool :=
  match probe full with
  | .invalid _ => hasUnterminatedTripleQuote full
  | .incomplete => true
  | .complete => next_line_is_continuation lines i

/-- One loop iteration neither pre-flushes nor flushes: the pre-append check
does not fire and the main probe keeps accumulating. -/
def stepKeeps (probe : Probe) (lines : List String) (i : Nat) (line : String)
    (buf : List String) : Bool :=
  !precheckFires probe line buf && mainKeeps probe lines i (joinNl (buf ++ [line]))

/-- Every iteration over `rest`, starting at index `i` with buffer `buf`,
keeps accumulating. -/
def keepsAll (probe : Probe) (lines : List String) : Nat → List String → List String → Bool
  | _, _, [] => true
  | i, buf, l :: ls =>
    stepKeeps probe lines i l buf && keepsAll probe lines (i + 1) (buf ++ [l]) ls

/-- The non-`None` values of a displayed sequence, rendered by `repr` — what the
capture hook collects over one turn. -/
def displayedReprs (displayed : List PyVal) : List String :=
  (displayed.filter (fun v => match v with | PyVal.none => false | _ => true)).map pyRepr

/-! ## Theme derivation: `_make_repl_style` -/

/-- Resolved Pygments style attributes of one token, as `style_for_token`
reports them: a color (`none` when the theme leaves it unset) and a weight. -/
structure TokenStyle where
  color : Option String
  bold : Bool
deriving DecidableEq

/-- A Pygments base style, observed at the interface `_make_repl_style` uses:
the resolved style of the `Generic` token (the theme's default foreground,
inherited from the root `Token` entry), the resolved style of
`Generic.Output`, and the resolved styles of every other token, indexed by
name.  No standard Pygments token inherits from `Generic.Output`, so
overriding that single `styles` entry changes no other token's resolution. -/
structure PygStyle where
  generic : TokenStyle
  genericOutput : TokenStyle
  others : String → TokenStyle

/-- Python string truthiness of an optional color: `None` and `""` are falsy. -/
def colorOrEmpty (o : Option String) : String := match o with | some c => c | none => ""

/-- Python `a or b` under string truthiness. -/
def pyOrStr (a b : String) : String := if a == "" then b else a

/-- The `default_color` computation of `_make_repl_style`: first
`style_for_token(Generic)["color"] or style_for_token(Generic.Output).get("color", "")`,
then — if that is still falsy — `style_for_token(Generic)["color"] or "f8f8f2"`. -/
def make_repl_style_default_color (base : PygStyle) : String :=
  let d := pyOrStr (colorOrEmpty base.generic.color) (colorOrEmpty base.genericOutput.color)
  if d == "" then pyOrStr (colorOrEmpty base.generic.color) "f8f8f2" else d

/-- `_make_repl_style(base_name)`: the derived class copies the base `styles`
dict and overrides only the `Generic.Output` entry with `#{default_color}`,
whose resolution has that color and the weight inherited from `Generic`. -/
def make_repl_style (base : PygStyle) : PygStyle :=
  { base with
    genericOutput :=
      { color := some (make_repl_style_default_color base), bold := base.generic.bold } }

/-- A base style shaped like Pygments' stock `default` theme: no explicit
default foreground (`Generic` resolves with no color), while `Generic.Output`
carries its own color `717171`. -/
def defaultLikeStyle : PygStyle :=
  { generic := { color := none, bold := false },
    genericOutput := { color := some "717171", bold := false },
    others := fun _ => { color := none, bold := false } }

/-! ## Helper lemmas about the namespace and the capture hook -/

theorem nsGet_nsSet_self (ns : Namespace) (k : String) (v : PyVal) :
    nsGet (nsSet ns k v) k = some v := by
  induction ns with
  | nil => simp [nsSet, nsGet]
  | cons kv rest ih =>
    obtain ⟨k0, v0⟩ := kv
    by_cases h : k0 = k <;> simp [nsSet, nsGet, h, ih]

theorem nsGet_nsSet_of_ne (ns : Namespace) (k k2 : String) (v : PyVal) (h : k2 ≠ k) :
    nsGet (nsSet ns k v) k2 = nsGet ns k2 := by
  induction ns with
  | nil => simp [nsSet, nsGet, Ne.symm h]
  | cons kv rest ih =>
    obtain ⟨k0, v0⟩ := kv
    by_cases h0 : k0 = k
    · subst h0
      simp [nsSet, nsGet, Ne.symm h]
    · by_cases h2 : k0 = k2 <;> simp [nsSet, nsGet, h0, h2, h, ih]

theorem nsGet_append_single_of_ne (ns : Namespace) (b k : String) (d : PyVal) (h : k ≠ b) :
    nsGet (ns ++ [(b, d)]) k = nsGet ns k := by
  induction ns with
  | nil => simp [nsGet, Ne.symm h]
  | cons kv rest ih =>
    obtain ⟨k0, v0⟩ := kv
    by_cases h0 : k0 = k <;> simp [nsGet, h0, ih]

theorem nsGet_capture_of_ne (st : HookState) (v : PyVal) (k : String)
    (hk : k ≠ "__builtins__") :
    nsGet (capture_displayhook st v).ns k = nsGet st.ns k := by
  cases v with
  | none => rfl
  | int n =>
    simp only [capture_displayhook, nsSetdefault]
    cases hb : nsGet st.ns "__builtins__" with
    | some b =>
      cases b <;> simp [nsGet_nsSet_of_ne _ _ _ _ hk]
    | none => simp [nsGet_nsSet_of_ne _ _ _ _ hk, nsGet_append_single_of_ne _ _ _ _ hk]
  | str s =>
    simp only [capture_displayhook, nsSetdefault]
    cases hb : nsGet st.ns "__builtins__" with
    | some b =>
      cases b <;> simp [nsGet_nsSet_of_ne _ _ _ _ hk]
    | none => simp [nsGet_nsSet_of_ne _ _ _ _ hk, nsGet_append_single_of_ne _ _ _ _ hk]
  | dict es =>
    simp only [capture_displayhook, nsSetdefault]
    cases hb : nsGet st.ns "__builtins__" with
    | some b =>
      cases b <;> simp [nsGet_nsSet_of_ne _ _ _ _ hk]
    | none => simp [nsGet_nsSet_of_ne _ _ _ _ hk, nsGet_append_single_of_ne _ _ _ _ hk]

theorem nsGet_foldl_capture_of_ne (l : List PyVal) (st : HookState) (k : String)
    (hk : k ≠ "__builtins__") :
    nsGet (l.foldl capture_displayhook st).ns k = nsGet st.ns k := by
  induction l generalizing st with
  | nil => rfl
  | cons v rest ih => simp [List.foldl, ih, nsGet_capture_of_ne _ _ _ hk]

theorem nsGet_runcode_of_ne (interp : Interp) (ns : Namespace) (src : String) (k : String)
    (hk : k ≠ "__builtins__") :
    nsGet (runcode interp ns src).ns k = nsGet (interp ns src).ns k := by
  simp [runcode, nsGet_foldl_capture_of_ne _ _ _ hk]

/-! ## Helper lemmas about `flush_buffer` and the `execute` loop -/

theorem joinNl_single (s : String) : joinNl [s] = s := rfl

theorem joinNl_pair (a b : String) : joinNl [a, b] = a ++ "\n" ++ b := by
  simp only [joinNl, joinNlAux, List.map]
  apply String.ext
  simp [String.data_append]

theorem joinNl_triple (a b c : String) : joinNl [a, b, c] = a ++ "\n" ++ b ++ "\n" ++ c := by
  simp only [joinNl, joinNlAux, List.map]
  apply String.ext
  simp [String.data_append]

/-- A turn that displays nothing leaves the namespace exactly as the executor
returned it (the capture hook never fires). -/
theorem runcode_ns_of_no_display (interp : Interp) (ns : Namespace) (src : String)
    (h : (interp ns src).displayed = []) :
    (runcode interp ns src).ns = (interp ns src).ns := by
  simp [runcode, h]

/-- On the complete path, `_flush_buffer` echoes the buffer, runs it once, and
appends body lines then result lines; the process channels come back equal to
the originals and three fresh stream identities were consumed. -/
theorem flush_buffer_complete (probe : Probe) (interp : Interp) (buffer : List String)
    (parts : List String) (ns : Namespace) (chans : SysChannels) (fresh : Nat)
    (h : probe (joinNl buffer ++ "\n") = .complete) :
    flush_buffer probe interp buffer parts ns chans fresh =
      { parts := parts ++ (echoes buffer
          ++ bodyLines (runcode interp ns (joinNl buffer))
          ++ resultLines (runcode interp ns (joinNl buffer))),
        ns := (runcode interp ns (joinNl buffer)).ns,
        chans := chans,
        fresh := fresh + 3 } := by
  simp only [flush_buffer, h, bodyLines, resultLines]
  by_cases ho : (runcode interp ns (joinNl buffer)).out == "" <;>
    by_cases he : (runcode interp ns (joinNl buffer)).err == "" <;>
      simp [ho, he]

/-- On the syntax-error path, `_flush_buffer` echoes the buffer and appends the
right-stripped diagnostic when non-empty; the temporarily redirected stderr is
restored, leaving the channels equal to the originals. -/
theorem flush_buffer_invalid (probe : Probe) (interp : Interp) (buffer : List String)
    (parts : List String) (ns : Namespace) (chans : SysChannels) (fresh : Nat)
    (diag : String) (h : probe (joinNl buffer ++ "\n") = .invalid diag) :
    flush_buffer probe interp buffer parts ns chans fresh =
      { parts := parts ++ (echoes buffer ++ (if diag == "" then [] else [pyRstrip diag])),
        ns := ns,
        chans := chans,
        fresh := fresh + 1 } := by
  simp only [flush_buffer, h]
  by_cases hd : diag == "" <;> simp [hd]

/-- `_flush_buffer` restores the process channels on every exit path. -/
theorem flush_buffer_chans (probe : Probe) (interp : Interp) (buffer : List String)
    (parts : List String) (ns : Namespace) (chans : SysChannels) (fresh : Nat) :
    (flush_buffer probe interp buffer parts ns chans fresh).chans = chans := by
  cases h : probe (joinNl buffer ++ "\n") with
  | complete => rw [flush_buffer_complete probe interp buffer parts ns chans fresh h]
  | incomplete => simp [flush_buffer, h]
  | invalid diag => rw [flush_buffer_invalid probe interp buffer parts ns chans fresh diag h]

theorem execStep_keeps (probe : Probe) (interp : Interp) (lines : List String) (i : Nat)
    (line : String) (st : ExecState)
    (h : stepKeeps probe lines i line st.buffer = true) :
    execStep probe interp lines i line st = { st with buffer := st.buffer ++ [line] } := by
  simp only [stepKeeps, Bool.and_eq_true, Bool.not_eq_true'] at h
  obtain ⟨hpre, hmain⟩ := h
  cases hp : probe (joinNl (st.buffer ++ [line])) with
  | invalid diag =>
    simp only [mainKeeps, hp] at hmain
    simp [execStep, hpre, hp, hmain]
  | incomplete =>
    simp [execStep, hpre, hp]
  | complete =>
    simp only [mainKeeps, hp] at hmain
    simp [execStep, hpre, hp, hmain]

theorem execGo_keepsAll (probe : Probe) (interp : Interp) (lines : List String) :
    ∀ (rest : List String) (i : Nat) (st : ExecState),
      keepsAll probe lines i st.buffer rest = true →
      execGo probe interp lines i rest st = { st with buffer := st.buffer ++ rest } := by
  intro rest
  induction rest with
  | nil => intro i st _; simp [execGo]
  | cons l ls ih =>
    intro i st h
    simp only [keepsAll, Bool.and_eq_true] at h
    obtain ⟨h1, h2⟩ := h
    simp only [execGo, execStep_keeps probe interp lines i l st h1]
    rw [ih (i + 1) { st with buffer := st.buffer ++ [l] } h2]
    simp

theorem execGo_append (probe : Probe) (interp : Interp) (lines : List String) :
    ∀ (xs ys : List String) (i : Nat) (st : ExecState),
      execGo probe interp lines i (xs ++ ys) st =
        execGo probe interp lines (i + xs.length) ys (execGo probe interp lines i xs st) := by
  intro xs
  induction xs with
  | nil => intro ys i st; simp [execGo]
  | cons x rest ih =>
    intro ys i st
    simp only [List.cons_append, execGo, List.length_cons, List.append_eq]
    rw [ih ys (i + 1) (execStep probe interp lines i x st)]
    congr 1
    omega

theorem capture_displayhook_reprs (st : HookState) (v : PyVal) (hv : v ≠ PyVal.none) :
    (capture_displayhook st v).reprs = st.reprs ++ [pyRepr v] := by
  cases v with
  | none => exact absurd rfl hv
  | int n =>
    simp only [capture_displayhook]
    rcases h : nsSetdefault st.ns "__builtins__" (.dict []) with ⟨b, ns1⟩
    cases b <;> simp
  | str s =>
    simp only [capture_displayhook]
    rcases h : nsSetdefault st.ns "__builtins__" (.dict []) with ⟨b, ns1⟩
    cases b <;> simp
  | dict es =>
    simp only [capture_displayhook]
    rcases h : nsSetdefault st.ns "__builtins__" (.dict []) with ⟨b, ns1⟩
    cases b <;> simp

theorem foldl_capture_reprs (l : List PyVal) :
    ∀ st : HookState, (l.foldl capture_displayhook st).reprs = st.reprs ++ displayedReprs l := by
  induction l with
  | nil => intro st; simp [displayedReprs]
  | cons v rest ih =>
    intro st
    cases v with
    | none => simp [List.foldl, capture_displayhook, ih, displayedReprs]
    | int n =>
      simp [List.foldl, ih, displayedReprs,
        capture_displayhook_reprs st (.int n) (by intro h; cases h)]
    | str s =>
      simp [List.foldl, ih, displayedReprs,
        capture_displayhook_reprs st (.str s) (by intro h; cases h)]
    | dict es =>
      simp [List.foldl, ih, displayedReprs,
        capture_displayhook_reprs st (.dict es) (by intro h; cases h)]

theorem runcode_out (interp : Interp) (ns : Namespace) (src : String) :
    (runcode interp ns src).out = (interp ns src).out := rfl

theorem runcode_err (interp : Interp) (ns : Namespace) (src : String) :
    (runcode interp ns src).err =
      (interp ns src).err ++ (match (interp ns src).exc with | some t => t | none => "") := rfl

theorem runcode_reprs (interp : Interp) (ns : Namespace) (src : String) :
    (runcode interp ns src).reprs = displayedReprs (interp ns src).displayed := by
  simp [runcode, foldl_capture_reprs]

/-- A loop iteration whose main probe reports complete with no continuation
clause ahead flushes the grown buffer and resets it. -/
theorem execStep_flushes_complete (probe : Probe) (interp : Interp) (lines : List String)
    (i : Nat) (line : String) (st : ExecState)
    (hpre : precheckFires probe line st.buffer = false)
    (hp : probe (joinNl (st.buffer ++ [line])) = .complete)
    (hnext : next_line_is_continuation lines i = false) :
    execStep probe interp lines i line st =
      { parts := (flush_buffer probe interp (st.buffer ++ [line]) st.parts st.ns st.chans st.fresh).parts,
        buffer := [],
        ns := (flush_buffer probe interp (st.buffer ++ [line]) st.parts st.ns st.chans st.fresh).ns,
        chans := (flush_buffer probe interp (st.buffer ++ [line]) st.parts st.ns st.chans st.fresh).chans,
        fresh := (flush_buffer probe interp (st.buffer ++ [line]) st.parts st.ns st.chans st.fresh).fresh } := by
  simp [execStep, hpre, hp, hnext]

/-! ## Claim theorems -/

/-- C1: For every single bare-expression statement whose evaluation yields a
non-null value (a pure expression: no printed output, no error text, no raised
exception), `execute` produces exactly the primary echo of the source line
followed by one ResultText line — tagged with the internal `REPR_SENTINEL` —
whose text equals the value's canonical representation `repr(value)`.
The witness instantiates the claim's example: `2 + 3` echoes `>>> 2 + 3` and
yields the single result line `5`. -/
theorem C1_bare_expression_turn (probe : Probe) (interp : Interp) (ns : Namespace)
    (chans : SysChannels) (fresh : Nat) (src : String) (v : PyVal) (ns2 : Namespace)
    (hsrc : pySplitNl (pyStrip src) = [src])
    (hp1 : probe src = ProbeResult.complete)
    (hp2 : probe (src ++ "\n") = ProbeResult.complete)
    (hrun : interp ns src = { out := "", err := "", exc := none, displayed := [v], ns := ns2 })
    (hv : v ≠ PyVal.none) :
    (execute probe interp ns chans fresh src).output =
      ">>> " ++ src ++ "\n" ++ REPR_SENTINEL ++ pyRepr v := by
  cases v with
  | none => exact absurd rfl hv
  | int n =>
    simp [execute, hsrc, execGo, execStep, precheckFires, joinNl_single, hp1, hp2,
      next_line_is_continuation, flush_buffer_complete, bodyLines, resultLines,
      runcode_out, runcode_err, runcode_reprs, hrun, displayedReprs, echoes,
      joinNl_pair, String.append_assoc]
  | str s =>
    simp [execute, hsrc, execGo, execStep, precheckFires, joinNl_single, hp1, hp2,
      next_line_is_continuation, flush_buffer_complete, bodyLines, resultLines,
      runcode_out, runcode_err, runcode_reprs, hrun, displayedReprs, echoes,
      joinNl_pair, String.append_assoc]
  | dict es =>
    simp [execute, hsrc, execGo, execStep, precheckFires, joinNl_single, hp1, hp2,
      next_line_is_continuation, flush_buffer_complete, bodyLines, resultLines,
      runcode_out, runcode_err, runcode_reprs, hrun, displayedReprs, echoes,
      joinNl_pair, String.append_assoc]

/-- C1 witness: the claim's own example `2 + 3` under the CPython-modelling
oracles yields `>>> 2 + 3` followed by the tagged result line `5`. -/
theorem C1_bare_expression_turn_witness :
    (execute cpProbe cpInterp [] ⟨0, 1, 2⟩ 10 "2 + 3").output =
      ">>> 2 + 3\n" ++ REPR_SENTINEL ++ "5" :=
  C1_bare_expression_turn cpProbe cpInterp [] ⟨0, 1, 2⟩ 10 "2 + 3" (PyVal.int 5) []
    rfl rfl rfl rfl (by intro h; cases h)

/-- C3: For every turn executed through the sandbox, on every exit path of
`_flush_buffer` the process-wide stdout, stderr and displayhook references are
restored to their pre-turn values; and when the executed code itself raises an
unhandled error (the executor reports a formatted traceback), the traceback is
captured at the end of the error channel and rendered as that channel's body
line rather than propagated — the turn still takes the complete path, echoing
its source and appending body text and result lines as usual. -/
theorem C3_scoped_channel_restoration (probe : Probe) (interp : Interp)
    (buffer : List String) (parts : List String) (ns : Namespace)
    (chans : SysChannels) (fresh : Nat) :
    (flush_buffer probe interp buffer parts ns chans fresh).chans = chans ∧
    (∀ t, probe (joinNl buffer ++ "\n") = ProbeResult.complete →
      (interp ns (joinNl buffer)).exc = some t →
      (flush_buffer probe interp buffer parts ns chans fresh).parts =
        parts ++ (echoes buffer
          ++ (if (interp ns (joinNl buffer)).out == "" then []
              else [pyRstrip (interp ns (joinNl buffer)).out])
          ++ (if (interp ns (joinNl buffer)).err ++ t == "" then []
              else [pyRstrip ((interp ns (joinNl buffer)).err ++ t)])
          ++ resultLines (runcode interp ns (joinNl buffer)))) := by
  constructor
  · exact flush_buffer_chans probe interp buffer parts ns chans fresh
  · intro t hp hexc
    rw [flush_buffer_complete probe interp buffer parts ns chans fresh hp]
    simp [bodyLines, runcode_out, runcode_err, hexc]

/-- C3 witness: the unbound-name turn — the executor raises a `NameError` —
leaves the channels exactly as they were and renders the traceback inline. -/
theorem C3_scoped_channel_restoration_witness :
    (flush_buffer cpProbe cpInterp ["undefined_var"] [] [] ⟨7, 8, 9⟩ 0).chans = ⟨7, 8, 9⟩ ∧
    (flush_buffer cpProbe cpInterp ["undefined_var"] [] [] ⟨7, 8, 9⟩ 0).parts =
      [">>> undefined_var", pyRstrip nameErrTrace] :=
  ⟨(C3_scoped_channel_restoration cpProbe cpInterp ["undefined_var"] [] [] ⟨7, 8, 9⟩ 0).1,
   by simpa using
     (C3_scoped_channel_restoration cpProbe cpInterp ["undefined_var"] [] [] ⟨7, 8, 9⟩ 0).2
       nameErrTrace rfl rfl⟩

/-- C6: For every executed turn, all captured body text (stdout first, then
stderr) is appended to the transcript strictly before all of that turn's
tagged result lines, independent of the wall-clock order of printing and value
production during execution: `_flush_buffer` reads both capture buffers only
after `runcode` returns and appends the representation lines last. -/
theorem C6_body_text_precedes_results (probe : Probe) (interp : Interp)
    (buffer : List String) (parts : List String) (ns : Namespace)
    (chans : SysChannels) (fresh : Nat)
    (h : probe (joinNl buffer ++ "\n") = ProbeResult.complete) :
    (flush_buffer probe interp buffer parts ns chans fresh).parts =
      parts ++ (echoes buffer
        ++ bodyLines (runcode interp ns (joinNl buffer))
        ++ resultLines (runcode interp ns (joinNl buffer))) :=
  flush_buffer_complete probe interp buffer parts ns chans fresh h ▸ rfl

/-- C6 witness: calling a function that prints `side` and returns `42` puts the
body text `side` before the result line `42`. -/
theorem C6_body_text_precedes_results_witness :
    (flush_buffer cpProbe cpInterp ["f()"] [] [] ⟨0, 1, 2⟩ 0).parts =
      [">>> f()", "side", REPR_SENTINEL ++ "42"] := by
  simpa using C6_body_text_precedes_results cpProbe cpInterp ["f()"] [] [] ⟨0, 1, 2⟩ 0 rfl

/-- C10: For every turn whose execution captures no stdout text and no stderr
text (and raises nothing), `execute`'s flush emits no body-text line at all —
not even an empty one: the turn contributes exactly its echo lines followed by
its result lines, because a body line is appended only when the corresponding
captured channel text is non-empty. -/
theorem C10_silent_turn_has_no_body_line (probe : Probe) (interp : Interp)
    (buffer : List String) (parts : List String) (ns : Namespace)
    (chans : SysChannels) (fresh : Nat)
    (h : probe (joinNl buffer ++ "\n") = ProbeResult.complete)
    (hout : (interp ns (joinNl buffer)).out = "")
    (herr : (interp ns (joinNl buffer)).err = "")
    (hexc : (interp ns (joinNl buffer)).exc = none) :
    (flush_buffer probe interp buffer parts ns chans fresh).parts =
      parts ++ (echoes buffer ++ resultLines (runcode interp ns (joinNl buffer))) := by
  rw [flush_buffer_complete probe interp buffer parts ns chans fresh h]
  simp [bodyLines, runcode_out, runcode_err, hout, herr, hexc]

/-- C10 witness: the silent turn `2 + 3` contributes exactly its echo and its
result line, with no body line in between. -/
theorem C10_silent_turn_has_no_body_line_witness :
    (flush_buffer cpProbe cpInterp ["2 + 3"] [] [] ⟨3, 4, 5⟩ 0).parts =
      [">>> 2 + 3", REPR_SENTINEL ++ "5"] := by
  simpa using
    C10_silent_turn_has_no_body_line cpProbe cpInterp ["2 + 3"] [] [] ⟨3, 4, 5⟩ 0 rfl rfl rfl rfl

/-- C7: For the input source `def` alone, `execute` returns a transcript in
which the source line is echoed and followed by diagnostic text naming a
syntax-error condition (it contains `SyntaxError`).  The embedded engine is a
total function, so the call returns normally — the diagnostic is rendered
inline, never propagated. -/
theorem C7_bare_def_yields_syntax_error :
    (execute cpProbe cpInterp [] ⟨0, 1, 2⟩ 0 "def").output = ">>> def\n" ++ pyRstrip defDiag ∧
    occursIn "SyntaxError" (execute cpProbe cpInterp [] ⟨0, 1, 2⟩ 0 "def").output = true := by
  exact ⟨by decide, by decide⟩

/-- C8: For every session state, executing the unbound-name turn
`undefined_var` yields a transcript naming `NameError`, leaves the namespace
untouched, and the session remains usable: a subsequent `execute` of
`x = 1` followed by `x` on the returned session still echoes both lines and
yields the result `1`. -/
theorem C8_name_error_then_session_usable (ns : Namespace) (chans chans2 : SysChannels)
    (fresh fresh2 : Nat) :
    occursIn "NameError" (execute cpProbe cpInterp ns chans fresh "undefined_var").output
      = true ∧
    (execute cpProbe cpInterp (execute cpProbe cpInterp ns chans fresh "undefined_var").ns
        chans2 fresh2 "x = 1\nx").output =
      ">>> x = 1\n>>> x\n" ++ REPR_SENTINEL ++ "1" := by
  have hu : execute cpProbe cpInterp ns chans fresh "undefined_var" =
      { output := ">>> undefined_var\n" ++ pyRstrip nameErrTrace,
        ns := ns, chans := chans, fresh := fresh + 3 } := by
    have hsplit : pySplitNl (pyStrip "undefined_var") = ["undefined_var"] := rfl
    have hp : cpProbe "undefined_var" = ProbeResult.complete := rfl
    have hpn : cpProbe "undefined_var\n" = ProbeResult.complete := rfl
    have hnc : next_line_is_continuation ["undefined_var"] 0 = false := rfl
    have hi : cpInterp ns "undefined_var" =
        { out := "", err := "", exc := some nameErrTrace, displayed := [], ns := ns } := rfl
    have hne : ¬(nameErrTrace = "") := by decide
    simp [execute, execGo, execStep, precheckFires, joinNl_single, joinNl_pair,
      flush_buffer_complete, bodyLines, resultLines, runcode_out, runcode_err,
      runcode_reprs, runcode_ns_of_no_display, displayedReprs, echoes,
      hsplit, hp, hpn, hnc, hi, hne]
  rw [hu]
  constructor
  · show occursIn "NameError" (">>> undefined_var\n" ++ pyRstrip nameErrTrace) = true
    decide
  · have h1 : nsGet (nsSet ns "x" (PyVal.int 1)) "x" = some (PyVal.int 1) :=
      nsGet_nsSet_self ns "x" (PyVal.int 1)
    have hsplit : pySplitNl (pyStrip "x = 1\nx") = ["x = 1", "x"] := rfl
    have hp0 : cpProbe "x = 1" = ProbeResult.complete := rfl
    have hp0n : cpProbe "x = 1\n" = ProbeResult.complete := rfl
    have hp1 : cpProbe "x" = ProbeResult.complete := rfl
    have hp1n : cpProbe "x\n" = ProbeResult.complete := rfl
    have hnc0 : next_line_is_continuation ["x = 1", "x"] 0 = false := rfl
    have hnc1 : next_line_is_continuation ["x = 1", "x"] 1 = false := rfl
    have hi0 : ∀ m : Namespace, cpInterp m "x = 1" =
        { out := "", err := "", exc := none, displayed := [],
          ns := nsSet m "x" (PyVal.int 1) } := fun m => rfl
    have hi1 : cpInterp (nsSet ns "x" (PyVal.int 1)) "x" =
        { out := "", err := "", exc := none, displayed := [PyVal.int 1],
          ns := nsSet ns "x" (PyVal.int 1) } := by
      simp [cpInterp, h1]
    have hrn : ∀ m : Namespace, (runcode cpInterp m "x = 1").ns = nsSet m "x" (PyVal.int 1) := by
      intro m
      rw [runcode_ns_of_no_display cpInterp m "x = 1" (by rw [hi0 m])]
      rw [hi0 m]
    simp [execute, execGo, execStep, precheckFires, joinNl_single, joinNl_triple,
      flush_buffer_complete, bodyLines, resultLines, runcode_out, runcode_err,
      runcode_reprs, hrn, displayedReprs, echoes,
      hsplit, hp0, hp0n, hp1, hp1n, hnc0, hnc1, hi0, hi1, pyRepr, REPR_SENTINEL]
    decide

/-- C5: For every session state, namespace mutations made by turn `n` are
visible to turn `n+1`, both within one `execute` call and across separate
calls on the same session: executing `x = 10`, `x`, `x * 2` as one block
yields the results `10` then `20` in that order, and executing `x = 99`
followed — in a later call on the returned session — by `x` yields `99`. -/
theorem C5_namespace_continuity (ns : Namespace) (chans chans2 : SysChannels)
    (fresh fresh2 : Nat) :
    (execute cpProbe cpInterp ns chans fresh "x = 10\nx\nx * 2").output =
      ">>> x = 10\n>>> x\n" ++ REPR_SENTINEL ++ "10\n>>> x * 2\n" ++ REPR_SENTINEL ++ "20" ∧
    (execute cpProbe cpInterp (execute cpProbe cpInterp ns chans fresh "x = 99").ns
        chans2 fresh2 "x").output = ">>> x\n" ++ REPR_SENTINEL ++ "99" := by
  constructor
  · have hsplit : pySplitNl (pyStrip "x = 10\nx\nx * 2") = ["x = 10", "x", "x * 2"] := rfl
    have hp0 : cpProbe "x = 10" = ProbeResult.complete := rfl
    have hp0n : cpProbe "x = 10\n" = ProbeResult.complete := rfl
    have hp1 : cpProbe "x" = ProbeResult.complete := rfl
    have hp1n : cpProbe "x\n" = ProbeResult.complete := rfl
    have hp2 : cpProbe "x * 2" = ProbeResult.complete := rfl
    have hp2n : cpProbe "x * 2\n" = ProbeResult.complete := rfl
    have hnc0 : next_line_is_continuation ["x = 10", "x", "x * 2"] 0 = false := rfl
    have hnc1 : next_line_is_continuation ["x = 10", "x", "x * 2"] 1 = false := rfl
    have hnc2 : next_line_is_continuation ["x = 10", "x", "x * 2"] 2 = false := rfl
    have hi0 : ∀ m : Namespace, cpInterp m "x = 10" =
        { out := "", err := "", exc := none, displayed := [],
          ns := nsSet m "x" (PyVal.int 10) } := fun m => rfl
    have hrn0 : ∀ m : Namespace,
        (runcode cpInterp m "x = 10").ns = nsSet m "x" (PyVal.int 10) := by
      intro m
      rw [runcode_ns_of_no_display cpInterp m "x = 10" (by rw [hi0 m])]
      rw [hi0 m]
    have hi1 : cpInterp (nsSet ns "x" (PyVal.int 10)) "x" =
        { out := "", err := "", exc := none, displayed := [PyVal.int 10],
          ns := nsSet ns "x" (PyVal.int 10) } := by
      simp [cpInterp, nsGet_nsSet_self]
    have hg2 : nsGet (runcode cpInterp (nsSet ns "x" (PyVal.int 10)) "x").ns "x"
        = some (PyVal.int 10) := by
      rw [nsGet_runcode_of_ne cpInterp (nsSet ns "x" (PyVal.int 10)) "x" "x" (by decide)]
      rw [hi1]
      exact nsGet_nsSet_self ns "x" (PyVal.int 10)
    have hi2 : cpInterp (runcode cpInterp (nsSet ns "x" (PyVal.int 10)) "x").ns "x * 2" =
        { out := "", err := "", exc := none, displayed := [PyVal.int 20],
          ns := (runcode cpInterp (nsSet ns "x" (PyVal.int 10)) "x").ns } := by
      simp [cpInterp, hg2]
    simp [execute, execGo, execStep, precheckFires, joinNl_single,
      flush_buffer_complete, bodyLines, resultLines, runcode_out, runcode_err,
      runcode_reprs, hrn0, displayedReprs, echoes,
      hsplit, hp0, hp0n, hp1, hp1n, hp2, hp2n, hnc0, hnc1, hnc2, hi0, hi1, hi2]
    decide
  · have hs99 : pySplitNl (pyStrip "x = 99") = ["x = 99"] := rfl
    have hsx : pySplitNl (pyStrip "x") = ["x"] := rfl
    have hp99 : cpProbe "x = 99" = ProbeResult.complete := rfl
    have hp99n : cpProbe "x = 99\n" = ProbeResult.complete := rfl
    have hp1 : cpProbe "x" = ProbeResult.complete := rfl
    have hp1n : cpProbe "x\n" = ProbeResult.complete := rfl
    have hnc99 : next_line_is_continuation ["x = 99"] 0 = false := rfl
    have hncx : next_line_is_continuation ["x"] 0 = false := rfl
    have hi99 : ∀ m : Namespace, cpInterp m "x = 99" =
        { out := "", err := "", exc := none, displayed := [],
          ns := nsSet m "x" (PyVal.int 99) } := fun m => rfl
    have hrn99 : ∀ m : Namespace,
        (runcode cpInterp m "x = 99").ns = nsSet m "x" (PyVal.int 99) := by
      intro m
      rw [runcode_ns_of_no_display cpInterp m "x = 99" (by rw [hi99 m])]
      rw [hi99 m]
    have hix : cpInterp (nsSet ns "x" (PyVal.int 99)) "x" =
        { out := "", err := "", exc := none, displayed := [PyVal.int 99],
          ns := nsSet ns "x" (PyVal.int 99) } := by
      simp [cpInterp, nsGet_nsSet_self]
    simp [execute, execGo, execStep, precheckFires, joinNl_single,
      flush_buffer_complete, bodyLines, resultLines, runcode_out, runcode_err,
      runcode_reprs, hrn99, displayedReprs, echoes,
      hs99, hsx, hp99, hp99n, hp1, hp1n, hnc99, hncx, hi99, hix]
    decide

/-- While the pending buffer holds an open triple-quoted literal (and never
probes complete), every iteration keeps accumulating: the pre-append check is
blocked by the open-literal guard (or by the probe not reporting incomplete),
and the main probe treats both Invalid and Incomplete as Incomplete. -/
theorem keepsAll_of_open_literal (probe : Probe) (lines : List String) :
    ∀ (rest : List String) (i : Nat) (buf : List String),
      (∀ k, k < rest.length →
        hasUnterminatedTripleQuote (joinNl (buf ++ rest.take (k + 1))) = true ∧
        probe (joinNl (buf ++ rest.take (k + 1))) ≠ ProbeResult.complete) →
      (buf = [] ∨ hasUnterminatedTripleQuote (joinNl buf) = true ∨
        probe (joinNl buf) ≠ ProbeResult.incomplete) →
      keepsAll probe lines i buf rest = true := by
  intro rest
  induction rest with
  | nil => intro i buf _ _; rfl
  | cons l ls ih =>
    intro i buf h hbuf
    have h0 := h 0 (by simp)
    simp only [List.take, List.append_nil] at h0
    have hstep : stepKeeps probe lines i l buf = true := by
      have hpf : precheckFires probe l buf = false := by
        rcases hbuf with hb | hb | hb
        · simp [precheckFires, hb]
        · simp [precheckFires, hb]
        · simp [precheckFires, hb]
      have hmk : mainKeeps probe lines i (joinNl (buf ++ [l])) = true := by
        rcases h0 with ⟨hu, hc⟩
        cases hp : probe (joinNl (buf ++ [l])) with
        | invalid diag => simp [mainKeeps, hp, hu]
        | incomplete => simp [mainKeeps, hp]
        | complete => exact absurd hp hc
      simp [stepKeeps, hpf, hmk]
    simp only [keepsAll, hstep, Bool.true_and]
    apply ih (i + 1) (buf ++ [l])
    · intro k hk
      have := h (k + 1) (by simpa using Nat.succ_lt_succ hk)
      simpa [List.append_assoc] using this
    · right; left
      exact h0.1

/-- C2: For every source block forming one compound statement with attached
clauses, the segmenter emits it as a single turn.  `keepsAll` captures the
per-line accumulation conditions — in particular, via `stepKeeps`/`mainKeeps`,
a buffered statement that probes complete is *not* flushed when the next
source line's first whitespace-delimited token (trailing colons stripped) is
in the continuation-keyword set.  When every line accumulates and the whole
block executes at the trailing flush, the transcript is one primary echo for
the header line, one continuation echo per subsequent physical line (the
clause-keyword lines included), and the whole block's body text and result
lines appended exactly once. -/
theorem C2_clause_block_is_single_turn (probe : Probe) (interp : Interp) (ns : Namespace)
    (chans : SysChannels) (fresh : Nat) (source f0 : String) (rest : List String)
    (hsrc : pySplitNl (pyStrip source) = f0 :: rest)
    (hkeep : keepsAll probe (f0 :: rest) 0 [] (f0 :: rest) = true)
    (hflush : probe (joinNl (f0 :: rest) ++ "\n") = ProbeResult.complete) :
    (execute probe interp ns chans fresh source).output =
      joinNl ((">>> " ++ f0) :: (rest.map (fun l => "... " ++ l)
        ++ bodyLines (runcode interp ns (joinNl (f0 :: rest)))
        ++ resultLines (runcode interp ns (joinNl (f0 :: rest))))) := by
  simp only [execute, hsrc]
  rw [execGo_keepsAll probe interp (f0 :: rest) (f0 :: rest) 0
      { parts := [], buffer := [], ns := ns, chans := chans, fresh := fresh } hkeep]
  simp [flush_buffer_complete probe interp (f0 :: rest) [] ns chans fresh hflush, echoes]

/-- C2 witness: the two-line block `if True: print(1)` / `else: print(2)` —
whose header probes complete but is followed by a continuation-keyword line —
is one turn: primary echo, continuation echo, then the block's printed `1`. -/
theorem C2_clause_block_is_single_turn_witness :
    (execute cpProbe cpInterp [] ⟨0, 1, 2⟩ 0 ifElseSrc).output =
      ">>> if True: print(1)\n... else: print(2)\n1" := by
  have h := C2_clause_block_is_single_turn cpProbe cpInterp [] ⟨0, 1, 2⟩ 0 ifElseSrc
    "if True: print(1)" ["else: print(2)"] rfl (by decide) rfl
  rw [h]
  decide

/-- C4: For every source block whose accumulating buffer holds a still-open
triple-quoted literal (odd delimiter count) at every proper prefix, the
segmenter never flushes at an inner line — a probe result of Invalid or
Incomplete is treated as Incomplete and accumulation continues — until the
literal closes; the block then flushes as one unit producing exactly the echo
lines followed by one ResultText line carrying `repr` of the full literal
content. -/
theorem C4_open_literal_single_turn (probe : Probe) (interp : Interp) (ns ns2 : Namespace)
    (chans : SysChannels) (fresh : Nat) (source : String)
    (front : List String) (lastLine content : String)
    (hsrc : pySplitNl (pyStrip source) = front ++ [lastLine])
    (hunterm : ∀ k, k < front.length →
      hasUnterminatedTripleQuote (joinNl (front.take (k + 1))) = true ∧
      probe (joinNl (front.take (k + 1))) ≠ ProbeResult.complete)
    (hfront : front ≠ [])
    (hlast : probe (joinNl (front ++ [lastLine])) = ProbeResult.complete)
    (hflush : probe (joinNl (front ++ [lastLine]) ++ "\n") = ProbeResult.complete)
    (hrun : interp ns (joinNl (front ++ [lastLine])) =
      { out := "", err := "", exc := none, displayed := [PyVal.str content], ns := ns2 }) :
    (execute probe interp ns chans fresh source).output =
      joinNl (echoes (front ++ [lastLine])
        ++ [REPR_SENTINEL ++ pyRepr (PyVal.str content)]) := by
  have hkeep : keepsAll probe (front ++ [lastLine]) 0 [] front = true := by
    apply keepsAll_of_open_literal probe (front ++ [lastLine]) front 0 []
    · simpa using hunterm
    · left; rfl
  have huf : hasUnterminatedTripleQuote (joinNl front) = true := by
    cases front with
    | nil => exact absurd rfl hfront
    | cons a l =>
      have h := (hunterm l.length (by simp)).1
      simpa [List.take_succ_cons, List.take_length] using h
  have hnone : (front ++ [lastLine])[front.length + 1]? = none := by
    apply List.getElem?_eq_none
    simp
  simp only [execute, hsrc]
  rw [execGo_append probe interp (front ++ [lastLine]) front [lastLine] 0
      { parts := [], buffer := [], ns := ns, chans := chans, fresh := fresh }]
  rw [execGo_keepsAll probe interp (front ++ [lastLine]) front 0
      { parts := [], buffer := [], ns := ns, chans := chans, fresh := fresh } hkeep]
  simp only [execGo]
  rw [execStep_flushes_complete probe interp (front ++ [lastLine]) (0 + front.length)
      lastLine
      { parts := [], buffer := [] ++ front, ns := ns, chans := chans, fresh := fresh }
      (by simp [precheckFires, huf])
      (by simpa using hlast)
      (by simp [next_line_is_continuation, hnone])]
  have hfl := flush_buffer_complete probe interp (front ++ [lastLine]) [] ns chans fresh hflush
  simp only [List.nil_append] at hfl ⊢
  rw [hfl]
  simp [bodyLines, resultLines, runcode_out, runcode_err, runcode_reprs, hrun,
    displayedReprs]

/-- C4 witness: the literal `\"\"\"hello` / `world\"\"\"` accumulates across its
open first line (which probes Invalid) and flushes once, yielding the two echo
lines and the single result line with the full content. -/
theorem C4_open_literal_single_turn_witness :
    (execute cpProbe cpInterp [] ⟨0, 1, 2⟩ 0 tqLitSrc).output =
      ">>> \"\"\"hello\n... world\"\"\"\n" ++ REPR_SENTINEL
        ++ pyRepr (PyVal.str "hello\nworld") := by
  have h := C4_open_literal_single_turn cpProbe cpInterp [] [] ⟨0, 1, 2⟩ 0 tqLitSrc
    ["\"\"\"hello"] "world\"\"\"" "hello\nworld"
    rfl (by decide) (by decide) rfl rfl rfl
  rw [h]
  decide

/-- C9 counterexample: the claim states that the derived output-token color is
the base theme's default foreground, "falling back to a fixed neutral color
when the base theme defines no explicit default".  For a base style shaped
like Pygments' stock `default` theme — no explicit default foreground, but an
own `Generic.Output` color `717171` — the code instead keeps the output
token's own color: the result is `717171`, not the fixed neutral `f8f8f2`
required by the claim. -/
theorem C9_theme_derivation_counterexample :
    (make_repl_style defaultLikeStyle).genericOutput.color = some "717171" ∧
    ¬ ((make_repl_style defaultLikeStyle).genericOutput.color = some "f8f8f2") := by
  exact ⟨by decide, by decide⟩

/-- C9 (amended): for every base theme the derived REPL style is identical to
the base in every token's resolved color and weight except the output-text
token `Generic.Output`, whose color is overridden to the base theme's default
foreground when one is set, otherwise to the base theme's own
`Generic.Output` color when that is set, and only otherwise to the fixed
neutral `f8f8f2`. -/
theorem C9_theme_derivation_amended (base : PygStyle) :
    (make_repl_style base).generic = base.generic ∧
    (∀ name, (make_repl_style base).others name = base.others name) ∧
    (make_repl_style base).genericOutput.color =
      some (pyOrStr (colorOrEmpty base.generic.color)
        (pyOrStr (colorOrEmpty base.genericOutput.color) "f8f8f2")) := by
  refine ⟨rfl, fun _ => rfl, ?_⟩
  simp only [make_repl_style, make_repl_style_default_color]
  by_cases hg : colorOrEmpty base.generic.color = ""
  · by_cases hgo : colorOrEmpty base.genericOutput.color = "" <;>
      simp [pyOrStr, hg, hgo]
  · simp [pyOrStr, hg]

end ReplFilter
